import Mathlib

/-!
# Verification of the nexen pattern-registry core

A shallow embedding of the nexen repository's core components, with theorems
settling the specification claims about them:

* the pattern-based registries (`connectors` package in
  `services/connectors/registry.go`, and the `models` package registry),
* the response normalizer (`models.CreateLLMResponse`),
* the backoff policy (`common.CalculateBackoff` in
  `services/connectors/common/base_llm_connection.go`),
* the Mistral connector's batch operation (`mistral.MistralClient.BatchCall`).

Modelling conventions:

* Go `int` is modelled as `Int` (unbounded; no arithmetic in the claims comes
  near machine-word overflow), Go `float64` as `ℚ` (exact arithmetic; the
  float fields under study are either copied verbatim or combined with small
  constants).
* Go maps are modelled as association lists (`lookupA` / `insertA`), which
  fixes one iteration order per state; Go's map iteration order is
  unspecified, and the spec documents first-match-wins as
  implementation-defined.
* Stateful functions take and return an explicit registry-state value; the
  mutex discipline collapses in this sequential model (the double-checked
  cache read in `Resolve` collapses to a single cache lookup).
* Fallible Go functions returning `(T, error)` are modelled as
  `Except String T` (or `Option String` for the error position when the
  value position carries no information).
* Go's `regexp` standard library is modelled by a small executable engine
  (`Regex`, `compile`, `matchString`) covering exactly the syntactic
  fragment the repository uses: literal characters, `.`, the postfix
  operators `*` `+` `?`, alternation `|`, groups `(...)`, a leading `^`
  anchor, a trailing `$` anchor, and backslash escapes of single
  characters. Character classes, counted repetition, lazy quantifiers and
  mid-pattern anchors are outside the modelled fragment and are treated as
  non-compiling.
-/

/-! ## A Brzozowski-derivative regular-expression engine
modelling the fragment of Go `regexp` used by the repository. -/

/-- Abstract syntax of the modelled regular-expression fragment. -/
inductive Regex where
  | fail : Regex
  | eps : Regex
  | char (c : Char) : Regex
  | anyChar : Regex
  | cat (r1 r2 : Regex) : Regex
  | alt (r1 r2 : Regex) : Regex
  | star (r : Regex) : Regex
deriving DecidableEq, Repr

/-- Does the regex accept the empty string? -/
def Regex.nullable : Regex → Bool
  | .fail => false
  | .eps => true
  | .char _ => false
  | .anyChar => false
  | .cat r1 r2 => r1.nullable && r2.nullable
  | .alt r1 r2 => r1.nullable || r2.nullable
  | .star _ => true

/-- Brzozowski derivative of a regex with respect to one character. -/
def Regex.deriv : Regex → Char → Regex
  | .fail, _ => .fail
  | .eps, _ => .fail
  | .char c, a => if a = c then .eps else .fail
  | .anyChar, _ => .eps
  | .cat r1 r2, a =>
      if r1.nullable then .alt (.cat (r1.deriv a) r2) (r2.deriv a)
      else .cat (r1.deriv a) r2
  | .alt r1 r2, a => .alt (r1.deriv a) (r2.deriv a)
  | .star r, a => .cat (r.deriv a) (.star r)

/-- Does the regex match the whole character list? -/
def Regex.matchesExact (r : Regex) (l : List Char) : Bool :=
  (l.foldl Regex.deriv r).nullable

/-- Does the regex match some initial segment of the character list? -/
def Regex.matchesInit : Regex → List Char → Bool
  | r, [] => r.nullable
  | r, c :: rest => r.nullable || (r.deriv c).matchesInit rest

/-- Match at a fixed start position: to the end of the input when
end-anchored, else some initial segment. -/
def regexSearchAt (ea : Bool) (r : Regex) (l : List Char) : Bool :=
  if ea then r.matchesExact l else r.matchesInit l

/-- Unanchored-or-anchored search over a character list, as Go's
`MatchString` performs: the match may start at any position unless the
pattern was start-anchored. -/
def regexSearch (sa ea : Bool) (r : Regex) (l : List Char) : Bool :=
  if sa then regexSearchAt ea r l
  else (l.tails).any (regexSearchAt ea r)

/-! ### Recursive-descent parsing of the pattern syntax
(fuel-indexed; fuel is sized generously by the caller, so running out of
fuel never happens on inputs the fragment accepts). -/

mutual

/-- Parse an alternation (`a|b|c`). -/
def parseRx : Nat → List Char → Option (Regex × List Char)
  | 0, _ => none
  | fuel + 1, l =>
    match parseSeq fuel l with
    | none => none
    | some (r1, rest) =>
      match rest with
      | '|' :: rest2 =>
        match parseRx fuel rest2 with
        | none => none
        | some (r2, rest3) => some (.alt r1 r2, rest3)
      | _ => some (r1, rest)

/-- Parse a concatenation of repeated atoms. -/
def parseSeq : Nat → List Char → Option (Regex × List Char)
  | 0, _ => none
  | fuel + 1, l =>
    match l with
    | [] => some (.eps, [])
    | ')' :: _ => some (.eps, l)
    | '|' :: _ => some (.eps, l)
    | _ =>
      match parseRep fuel l with
      | none => none
      | some (r1, rest) =>
        match parseSeq fuel rest with
        | none => none
        | some (r2, rest2) => some (.cat r1 r2, rest2)

/-- Parse an atom with an optional postfix repetition operator. -/
def parseRep : Nat → List Char → Option (Regex × List Char)
  | 0, _ => none
  | fuel + 1, l =>
    match parseAtom fuel l with
    | none => none
    | some (r, rest) =>
      match rest with
      | '*' :: rest2 => some (.star r, rest2)
      | '+' :: rest2 => some (.cat r (.star r), rest2)
      | '?' :: rest2 => some (.alt r .eps, rest2)
      | _ => some (r, rest)

/-- Parse a single atom: a group, `.`, an escaped character, or a literal
character. A repetition operator with no preceding atom, an unmatched
bracket, a trailing backslash, a mid-pattern anchor, or syntax outside the
modelled fragment fails to parse (Go rejects the former cases too). -/
def parseAtom : Nat → List Char → Option (Regex × List Char)
  | 0, _ => none
  | fuel + 1, l =>
    match l with
    | [] => none
    | '(' :: rest =>
      match parseRx fuel rest with
      | none => none
      | some (r, rest2) =>
        match rest2 with
        | ')' :: rest3 => some (r, rest3)
        | _ => none
    | '.' :: rest => some (.anyChar, rest)
    | '\\' :: c :: rest => some (.char c, rest)
    | ['\\'] => none
    | c :: rest =>
      if c = '*' || c = '+' || c = '?' || c = ')' || c = '|' ||
         c = '[' || c = ']' || c = '{' || c = '}' || c = '^' || c = '$' then
        none
      else
        some (.char c, rest)

end

/-- Strip a leading `^` anchor and a trailing `$` anchor from the pattern,
recording their presence. -/
def stripAnchors (l : List Char) : Bool × Bool × List Char :=
  let p := match l with
    | '^' :: rest => (true, rest)
    | _ => (false, l)
  match p.2.getLast? with
  | some '$' => (p.1, true, p.2.dropLast)
  | _ => (p.1, false, p.2)

/-- Model of `regexp.Compile` on the modelled fragment: `none` when the
pattern does not compile, otherwise the anchor flags and the parsed body. -/
def compile (pat : String) : Option (Bool × Bool × Regex) :=
  let (sa, ea, body) := stripAnchors pat.toList
  match parseRx (4 * body.length + 8) body with
  | some (r, []) => some (sa, ea, r)
  | _ => none

/-- Model of `regexp.MatchString pat s`: `none` models the compilation
error, `some b` reports whether the pattern matches somewhere in `s`. -/
def matchString (pat s : String) : Option Bool :=
  match compile pat with
  | none => none
  | some (sa, ea, r) => some (regexSearch sa ea r s.toList)

example : compile "(" = none := by decide
example : compile "*" = none := by decide
example : (compile "claude-3.*").isSome = true := by decide
example : matchString "claude-3.*" "claude-3-sonnet" = some true := by decide
example : matchString "claude-3.*" "gpt-4" = some false := by decide
example : matchString "gpt-4$" "gpt-4" = some true := by decide
example : matchString "gpt-4$" "gpt-4-turbo" = some false := by decide
example : matchString "mistral-.*" "mistral-large" = some true := by decide

/-! ## Association lists modelling Go maps -/

/-- Go map read `m[k]`: the value stored at the first occurrence of `k`. -/
def lookupA {β : Type} (k : String) : List (String × β) → Option β
  | [] => none
  | (k', v) :: rest => if k' = k then some v else lookupA k rest

/-- Go map write `m[k] = v`: replace the value at `k`, or append the
binding if `k` is absent. -/
def insertA {β : Type} (k : String) (v : β) : List (String × β) → List (String × β)
  | [] => [(k, v)]
  | (k', v') :: rest => if k' = k then (k, v) :: rest else (k', v') :: insertA k v rest

theorem lookupA_insertA_self {β : Type} (k : String) (v : β) (l : List (String × β)) :
    lookupA k (insertA k v l) = some v := by
  induction l with
  | nil => simp [insertA, lookupA]
  | cons hd tl ih =>
    obtain ⟨k', v'⟩ := hd
    by_cases h : k' = k
    · simp [insertA, lookupA, h]
    · simp [insertA, lookupA, h, ih]

/-! ## The connector-constructor registry
(`services/connectors/registry.go`). The constructor payload type is an
opaque parameter `κ` (in Go it is the function type `constructorFn`); the
package-level `registry` and `resolveCache` maps form the explicit state. -/

namespace connectors

/-- The package-level mutable state of the connectors registry:
`registry` maps model-name regexes to constructors, `resolveCache`
memoizes resolved model names. -/
structure RegistryState (κ : Type) where
  registry : List (String × κ)
  resolveCache : List (String × κ)
deriving DecidableEq

/-- `connectors.Register`: associates a model-name regex with a
constructor. The Go function performs no validation of the regex and
always returns a nil error; it overwrites any existing registration and
clears the resolution cache. The first component models the returned
`error` (always `none` = nil). -/
def Register {κ : Type} (modelRegex : String) (constructor : κ)
    (s : RegistryState κ) : Option String × RegistryState κ :=
  (none, { registry := insertA modelRegex constructor s.registry, resolveCache := [] })

/-- The linear scan inside `connectors.Resolve`: test the model name
against each registered regex in order; a regex that fails to compile
aborts the scan with an error, the first match wins. -/
def scan {κ : Type} (model : String) : List (String × κ) → Except String κ
  | [] => .error ("no LLM constructor found for model " ++ model)
  | (regex, ctor) :: rest =>
    match matchString regex model with
    | none => .error ("invalid regex " ++ regex)
    | some true => .ok ctor
    | some false => scan model rest

/-- `connectors.Resolve`: return the constructor for the model name,
serving from the resolution cache when possible, otherwise scanning the
registered regexes and caching the first match. (The Go double-checked
cache read collapses to one lookup in this sequential model.) -/
def Resolve {κ : Type} (model : String) (s : RegistryState κ) :
    Except String κ × RegistryState κ :=
  match lookupA model s.resolveCache with
  | some ctor => (.ok ctor, s)
  | none =>
    match scan model s.registry with
    | .ok ctor => (.ok ctor, { s with resolveCache := insertA model ctor s.resolveCache })
    | .error e => (.error e, s)

end connectors

/-! ## The model-metadata registry (`models` package). -/

namespace models

/-- `models.ModelInfo`: metadata for an LLM model. `CostPerToken` is a Go
`float64`, modelled as `ℚ`; `CostTier` is a string type in Go. -/
structure ModelInfo where
  ID : String
  Profiles : List String
  MaxTokens : Int
  CostPerToken : ℚ
  Provider : String
  CostTier : String
  Version : String
deriving DecidableEq

/-- The package-level mutable state of the models registry: `registry`
maps regex patterns to `ModelInfo`, `cache` maps resolved model names to
their resolved (ID-rewritten) `ModelInfo`. -/
structure RegistryState where
  registry : List (String × ModelInfo)
  cache : List (String × ModelInfo)
deriving DecidableEq

/-- `models.Register`: validates that the pattern compiles
(`regexp.Compile`); on failure returns an invalid-regex error leaving the
state unchanged, on success inserts/overwrites the entry and clears the
cache. The first component models the returned `error`. -/
def Register (regexPattern : String) (info : ModelInfo)
    (s : RegistryState) : Option String × RegistryState :=
  match compile regexPattern with
  | none => (some ("invalid regex " ++ regexPattern), s)
  | some _ =>
    (none, { registry := insertA regexPattern info s.registry, cache := [] })

/-- The linear scan inside `models.Resolve`: on the first pattern matching
the model name, return a copy of the stored info whose `ID` field is
replaced by the requested model name. -/
def scan (model : String) : List (String × ModelInfo) → Except String ModelInfo
  | [] => .error ("model not found: " ++ model)
  | (pattern, info) :: rest =>
    match matchString pattern model with
    | none => .error ("invalid regex " ++ pattern ++ " during resolve")
    | some true => .ok { info with ID := model }
    | some false => scan model rest

/-- `models.Resolve`: return the `ModelInfo` whose regex matches the model
name, serving from the cache when possible, otherwise scanning the
registered patterns and caching the ID-rewritten copy. -/
def Resolve (model : String) (s : RegistryState) :
    Except String ModelInfo × RegistryState :=
  match lookupA model s.cache with
  | some info => (.ok info, s)
  | none =>
    match scan model s.registry with
    | .ok info => (.ok info, { s with cache := insertA model info s.cache })
    | .error e => (.error e, s)

end models

/-! ## Canonical request/response shapes (`models` package).
The opaque parameter `α` stands for Go's `any` (used for content parts,
custom metadata, response schemas and tool instances). -/

namespace models

/-- `models.Content`: one role-tagged piece of content. -/
structure Content (α : Type) where
  Role : String
  Message : String
  Parts : List α
deriving DecidableEq

/-- `models.Citation`: a reference to a source document. -/
structure Citation where
  SourceID : String
  Title : String
  URL : String
  StartIndex : Int
  EndIndex : Int
deriving DecidableEq

/-- `models.GroundingMetadata`: citations and a grounding score. -/
structure GroundingMetadata where
  Citations : List Citation
  GroundingScore : ℚ
deriving DecidableEq

/-- `models.UsageMetrics`: token, latency and cost accounting. -/
structure UsageMetrics where
  PromptTokens : Int
  CompletionTokens : Int
  TotalTokens : Int
  LatencyMs : ℚ
  CostCents : ℚ
deriving DecidableEq

/-- `models.Candidate`: a single completion from the provider. -/
structure Candidate (α : Type) where
  Content : Option (models.Content α)
  FinishReason : String
  FinishMessage : String
  GroundingMetadata : Option models.GroundingMetadata
deriving DecidableEq

/-- `models.PromptFeedback`: prompt-level validation/safety feedback. -/
structure PromptFeedback where
  BlockReason : String
  BlockReasonMessage : String
deriving DecidableEq

/-- `models.GenerateContentResponse`: the provider-shaped result. -/
structure GenerateContentResponse (α : Type) where
  Candidates : List (Candidate α)
  PromptFeedback : Option models.PromptFeedback
  Usage : UsageMetrics
deriving DecidableEq

/-- `models.LLMResponse`: the canonical response. -/
structure LLMResponse (α : Type) where
  Content : Option (models.Content α)
  GroundingMetadata : Option models.GroundingMetadata
  Partial : Option Bool
  TurnComplete : Option Bool
  ErrorCode : Option String
  ErrorMessage : Option String
  Interrupted : Option Bool
  CustomMetadata : List (String × α)
  Usage : UsageMetrics
deriving DecidableEq

/-- The zero value of `LLMResponse` (`var result LLMResponse` in Go). -/
def emptyLLMResponse {α : Type} : LLMResponse α :=
  { Content := none
    GroundingMetadata := none
    Partial := none
    TurnComplete := none
    ErrorCode := none
    ErrorMessage := none
    Interrupted := none
    CustomMetadata := []
    Usage := { PromptTokens := 0, CompletionTokens := 0, TotalTokens := 0
               LatencyMs := 0, CostCents := 0 } }

/-- `models.CreateLLMResponse`: normalize a provider-shaped result into the
canonical response. Usage totals are recomputed as prompt + completion
tokens; the first candidate wins; a candidate without usable content, then
prompt feedback, then a fixed unknown error populate the error fields. -/
def CreateLLMResponse {α : Type} (resp : GenerateContentResponse α) : LLMResponse α :=
  let usage : UsageMetrics :=
    { PromptTokens := resp.Usage.PromptTokens
      CompletionTokens := resp.Usage.CompletionTokens
      TotalTokens := resp.Usage.PromptTokens + resp.Usage.CompletionTokens
      LatencyMs := resp.Usage.LatencyMs
      CostCents := resp.Usage.CostCents }
  let result : LLMResponse α := { emptyLLMResponse with Usage := usage }
  match resp.Candidates with
  | cand :: _ =>
    match cand.Content with
    | some c =>
      if 0 < c.Parts.length ∨ c.Message ≠ "" then
        { result with Content := some c, GroundingMetadata := cand.GroundingMetadata }
      else
        { result with
          ErrorCode := some cand.FinishReason
          ErrorMessage := some cand.FinishMessage }
    | none =>
      { result with
        ErrorCode := some cand.FinishReason
        ErrorMessage := some cand.FinishMessage }
  | [] =>
    match resp.PromptFeedback with
    | some pf =>
      { result with
        ErrorCode := some pf.BlockReason
        ErrorMessage := some pf.BlockReasonMessage }
    | none =>
      { result with
        ErrorCode := some "UNKNOWN_ERROR"
        ErrorMessage := some "Unknown error occurred." }

/-- `models.LLMResponse.IsError`: true iff the response carries an error
code or an error message. -/
def LLMResponse.IsError {α : Type} (r : LLMResponse α) : Bool :=
  r.ErrorCode.isSome || r.ErrorMessage.isSome

end models

/-- Modelled from the spec (§4.4 `Normalize`), for the refinement claim
about the normalizer's four-branch case analysis: (1) a first candidate
with non-empty content (a textual message or at least one content part)
yields a success carrying that content and grounding metadata, later
candidates ignored; (2) else a candidate without usable content yields a
failure with the candidate's finish-reason/finish-message; (3) else
present prompt feedback yields a failure with its block reason/message;
(4) else a fixed unknown-error failure. In every branch usage totals are
recomputed as prompt + completion tokens. -/
def NormalizeSpec {α : Type} (resp : models.GenerateContentResponse α) :
    models.LLMResponse α :=
  let usage : models.UsageMetrics :=
    { PromptTokens := resp.Usage.PromptTokens
      CompletionTokens := resp.Usage.CompletionTokens
      TotalTokens := resp.Usage.PromptTokens + resp.Usage.CompletionTokens
      LatencyMs := resp.Usage.LatencyMs
      CostCents := resp.Usage.CostCents }
  match resp.Candidates.head? with
  | some cand =>
    match cand.Content with
    | some c =>
      if c.Message ≠ "" ∨ 1 ≤ c.Parts.length then
        { models.emptyLLMResponse with
          Usage := usage
          Content := some c
          GroundingMetadata := cand.GroundingMetadata }
      else
        { models.emptyLLMResponse with
          Usage := usage
          ErrorCode := some cand.FinishReason
          ErrorMessage := some cand.FinishMessage }
    | none =>
      { models.emptyLLMResponse with
        Usage := usage
        ErrorCode := some cand.FinishReason
        ErrorMessage := some cand.FinishMessage }
  | none =>
    match resp.PromptFeedback with
    | some pf =>
      { models.emptyLLMResponse with
        Usage := usage
        ErrorCode := some pf.BlockReason
        ErrorMessage := some pf.BlockReasonMessage }
    | none =>
      { models.emptyLLMResponse with
        Usage := usage
        ErrorCode := some "UNKNOWN_ERROR"
        ErrorMessage := some "Unknown error occurred." }

/-! ## Retry policy and backoff
(`services/connectors/common/base_llm_connection.go`). -/

/-- Go's `time.Duration(x)` conversion from `float64`: truncation toward
zero to an integer (here from the exact rational model of the float). -/
def floatTrunc (q : ℚ) : ℤ :=
  if 0 ≤ q then ⌊q⌋ else -⌊-q⌋

namespace common

/-- `common.RetryConfig`: retry behavior for failed requests. `MinBackoff`
and `MaxBackoff` are backoff times in milliseconds (Go `int`). -/
structure RetryConfig where
  MaxRetries : Int
  MinBackoff : Int
  MaxBackoff : Int
  StatusCodesToRetry : List Int
deriving DecidableEq

/-- `common.RegionRouting`: endpoint region selection strategy. -/
structure RegionRouting where
  EnableRegionRouting : Bool
  PreferredRegions : List String
  FailoverStrategy : String
deriving DecidableEq

/-- `common.LLMConfig`: configuration for LLM clients. `CustomOptions` is
a Go `map[string]interface{}`, modelled as an association list over the
opaque parameter `α`. -/
structure LLMConfig (α : Type) where
  APIKey : String
  OrgID : String
  EndpointOverride : String
  Timeout : Int
  RetryConfig : common.RetryConfig
  RegionRouting : common.RegionRouting
  CustomOptions : List (String × α)
deriving DecidableEq

/-- `common.CalculateBackoff`: the backoff duration (in nanoseconds, as a
Go `time.Duration`) for a retry attempt. A negative attempt is clamped to
zero; the base is `min(maxBackoff, minBackoff * 2^attempt)` milliseconds;
±20% jitter is applied with the jitter source `r` (Go's `rand()` helper,
whose values lie in `[0,1)`) passed explicitly; the jittered value is
truncated to a millisecond count and scaled to a duration. The float64
arithmetic of the source is modelled exactly over `ℚ`. -/
def CalculateBackoff (attempt : Int) (config : RetryConfig) (r : ℚ) : Int :=
  let a : Int := if attempt < 0 then 0 else attempt
  let backoff1 : ℚ := (config.MinBackoff : ℚ) * 2 ^ a.toNat
  let backoff2 : ℚ := min backoff1 (config.MaxBackoff : ℚ)
  let jitter : ℚ := backoff2 * (1 / 5) * (2 * r - 1)
  floatTrunc (backoff2 + jitter) * 1000000

end common

/-! ## Canonical requests and the Mistral connector
(`models/llm_request.go` and the `mistral` package). -/

namespace models

/-- `models.ToolDeclaration`: a tool's function declarations. -/
structure ToolDeclaration where
  FunctionDeclarations : List String
deriving DecidableEq

/-- `models.GenerateContentConfig`: generation parameters. `Temperature`
and `TopP` are Go `float64`, modelled as `ℚ`; `ResponseSchema` is `any`. -/
structure GenerateContentConfig (α : Type) where
  SystemInstruction : String
  Tools : List ToolDeclaration
  ResponseSchema : Option α
  ResponseMimeType : String
  Temperature : ℚ
  TopP : ℚ
  MaxTokens : Int
  StopSequences : List String
deriving DecidableEq

/-- `models.LiveConnectConfig`: live-connection settings. -/
structure LiveConnectConfig (α : Type) where
  EnableStreaming : Bool
  StreamTimeout : Int
  CallbackURI : String
  CustomConfig : List (String × α)
deriving DecidableEq

/-- `models.LLMRequest`: one call to an LLM service. `ToolsDict` holds
tool instances (Go interface values), modelled by the opaque `α`. -/
structure LLMRequest (α : Type) where
  Model : String
  Contents : List (models.Content α)
  Config : Option (models.GenerateContentConfig α)
  LiveConnect : models.LiveConnectConfig α
  ToolsDict : List (String × α)
deriving DecidableEq

/-- `models.LLMRequest.Validate`: a request needs a model ID and at least
one content entry; `none` models a nil error. -/
def LLMRequest.Validate {α : Type} (r : LLMRequest α) : Option String :=
  if r.Model = "" then some "model ID is required"
  else if r.Contents.length = 0 then
    some "request must contain at least one content message"
  else none

end models

namespace mistral

/-- `mistral.MistralClient`: the Mistral connector client. -/
structure MistralClient (α : Type) where
  config : common.LLMConfig α
  modelName : String
deriving DecidableEq

/-- `mistral.MistralClient.Call`: fails when the caller's context is done
(`ctxErr` models `ctx.Err()`: `some e` when cancelled/expired) or the
request is invalid; otherwise returns the connector's mock response. -/
def MistralClient.Call {α : Type} (c : MistralClient α) (ctxErr : Option String)
    (request : models.LLMRequest α) : Except String (models.LLMResponse α) :=
  match ctxErr with
  | some e => .error e
  | none =>
    match request.Validate with
    | some e => .error ("invalid request: " ++ e)
    | none =>
      .ok { models.emptyLLMResponse with
            Content := some { Role := "assistant"
                              Message := "This is a mock response from " ++ c.modelName
                              Parts := [] }
            Usage := { PromptTokens := 90, CompletionTokens := 40, TotalTokens := 130,
                       LatencyMs := 350, CostCents := 1 / 100 } }

/-- The loop body of `mistral.MistralClient.BatchCall`, carrying the
0-based index of the next request. On the first failing `Call` the loop
stops: the remaining response slots stay `none` (nil in Go) and the error
names the failing index. -/
def batchCallLoop {α : Type} (c : MistralClient α) (ctxErr : Option String) :
    List (models.LLMRequest α) → Nat →
    List (Option (models.LLMResponse α)) × Option String
  | [], _ => ([], none)
  | req :: rest, i =>
    match MistralClient.Call c ctxErr req with
    | .error e =>
      (none :: rest.map (fun _ => none),
       some ("error processing request " ++ toString i ++ ": " ++ e))
    | .ok resp =>
      let p := batchCallLoop c ctxErr rest (i + 1)
      (some resp :: p.1, p.2)

/-- `mistral.MistralClient.BatchCall`: process the requests sequentially,
returning the (partially filled) response slice and the first error. -/
def MistralClient.BatchCall {α : Type} (c : MistralClient α) (ctxErr : Option String)
    (requests : List (models.LLMRequest α)) :
    List (Option (models.LLMResponse α)) × Option String :=
  batchCallLoop c ctxErr requests 0

end mistral

/-! ## Theorems settling the claims -/

/-- C1 (counterexample): the pattern `"("` does not compile as a regular
expression, yet the connector-constructor registry's `Register` returns a
nil error and inserts it — this registry performs no pattern validation,
so the claim that both registry instances reject non-compiling patterns
with an `InvalidPattern` error is false. -/
theorem C1_counterexample :
    compile "(" = none ∧
    connectors.Register "(" (0 : Int) ⟨[], []⟩ =
      (none, ⟨[("(", (0 : Int))], []⟩) :=
  ⟨by decide, rfl⟩

/-- C1 (amended): the model-metadata registry's `Register` rejects exactly
the non-compiling patterns (returning an invalid-pattern error and leaving
the state unchanged) and inserts/overwrites on compiling patterns; the
connector-constructor registry's `Register` performs no validation: it
returns a nil error and inserts any pattern, compiling or not. -/
theorem C1_register_validation {κ : Type} (pat : String) (info : models.ModelInfo)
    (t : models.RegistryState) (v : κ) (s : connectors.RegistryState κ) :
    (models.Register pat info t =
      if (compile pat).isSome then
        (none, { registry := insertA pat info t.registry, cache := [] })
      else (some ("invalid regex " ++ pat), t)) ∧
    connectors.Register pat v s =
      (none, { registry := insertA pat v s.registry, resolveCache := [] }) := by
  constructor
  · cases hc : compile pat <;> simp [models.Register, hc]
  · rfl

/-- C4: every successful `Register` (any pattern, in either registry)
empties the entire resolution cache, and a subsequent `Resolve` of any
identifier is answered by a fresh scan of the now-current registry
content, not by a payload cached before the registration. (The
connector-registry `Register` always succeeds.) -/
theorem C4_register_invalidates_cache {κ : Type} (p : String) (v : κ)
    (s : connectors.RegistryState κ) (x : String) (pat : String)
    (info : models.ModelInfo) (t : models.RegistryState) (y : String) :
    ((connectors.Register p v s).2.resolveCache = []) ∧
    ((connectors.Resolve x (connectors.Register p v s).2).1 =
      connectors.scan x (insertA p v s.registry)) ∧
    ((models.Register pat info t).1 = none →
      (models.Register pat info t).2.cache = [] ∧
      (models.Resolve y (models.Register pat info t).2).1 =
        models.scan y (insertA pat info t.registry)) := by
  refine ⟨rfl, ?_, ?_⟩
  · show (connectors.Resolve x ⟨insertA p v s.registry, []⟩).1 = _
    cases hs : connectors.scan x (insertA p v s.registry) <;>
      simp [connectors.Resolve, lookupA, hs]
  · intro h
    cases hc : compile pat with
    | none => simp [models.Register, hc] at h
    | some r =>
      have h2 : models.Register pat info t =
          (none, ⟨insertA pat info t.registry, []⟩) := by
        simp [models.Register, hc]
      rw [h2]
      refine ⟨rfl, ?_⟩
      cases hs : models.scan y (insertA pat info t.registry) <;>
        simp [models.Resolve, lookupA, hs]

/-- C4 (witness): a concrete successful registration into each registry
empties its cache and the next resolution scans the updated registry. -/
theorem C4_register_invalidates_cache_witness :
    (models.Register "gpt-4$"
      ⟨"gpt-4", ["chat"], 8192, 3 / 100000, "openai", "premium", "1.0"⟩
      ⟨[], [("cached", ⟨"stale", [], 0, 0, "x", "basic", ""⟩)]⟩).1 = none ∧
    (models.Register "gpt-4$"
      ⟨"gpt-4", ["chat"], 8192, 3 / 100000, "openai", "premium", "1.0"⟩
      ⟨[], [("cached", ⟨"stale", [], 0, 0, "x", "basic", ""⟩)]⟩).2.cache = [] := by
  refine ⟨by decide, ?_⟩
  exact (C4_register_invalidates_cache "p" (0 : Int) ⟨[], []⟩ "x" "gpt-4$"
    ⟨"gpt-4", ["chat"], 8192, 3 / 100000, "openai", "premium", "1.0"⟩
    ⟨[], [("cached", ⟨"stale", [], 0, 0, "x", "basic", ""⟩)]⟩ "y").2.2 (by decide) |>.1

/-- C5: with no intervening `Register`, a second `Resolve` of the same
identifier returns exactly the result (and state) of the first — in the
success case it is served from the cache entry the first call wrote. Holds
for both registry instances. -/
theorem C5_resolve_idempotent {κ : Type} (x : String) (s : connectors.RegistryState κ)
    (t : models.RegistryState) :
    connectors.Resolve x (connectors.Resolve x s).2 = connectors.Resolve x s ∧
    models.Resolve x (models.Resolve x t).2 = models.Resolve x t := by
  constructor
  · cases hc : lookupA x s.resolveCache with
    | some ctor => simp [connectors.Resolve, hc]
    | none =>
      cases hs : connectors.scan x s.registry with
      | ok ctor => simp [connectors.Resolve, hc, hs, lookupA_insertA_self]
      | error e => simp [connectors.Resolve, hc, hs]
  · cases hc : lookupA x t.cache with
    | some info => simp [models.Resolve, hc]
    | none =>
      cases hs : models.scan x t.registry with
      | ok info => simp [models.Resolve, hc, hs, lookupA_insertA_self]
      | error e => simp [models.Resolve, hc, hs]

/-- C2: in every branch of the normalizer, the canonical response's usage
total equals the provider result's prompt tokens plus completion tokens,
regardless of the provider-supplied total-tokens value. -/
theorem C2_usage_total_recomputed {α : Type} (resp : models.GenerateContentResponse α) :
    (models.CreateLLMResponse resp).Usage.TotalTokens =
      resp.Usage.PromptTokens + resp.Usage.CompletionTokens := by
  rcases resp with ⟨cands, pf, u⟩
  cases cands with
  | nil => cases pf <;> rfl
  | cons cand rest =>
    rcases cand with ⟨cc, fr, fm, gm⟩
    cases cc with
    | none => rfl
    | some c =>
      by_cases h : 0 < c.Parts.length ∨ c.Message ≠ "" <;>
        simp [models.CreateLLMResponse, models.emptyLLMResponse, h]

/-- C3: `CreateLLMResponse` follows exactly the spec's four-branch case
analysis (first candidate with usable content wins; else the candidate's
finish-reason/message; else the prompt feedback's block reason/message;
else the fixed `"UNKNOWN_ERROR"` failure). -/
theorem C3_normalizer_refines_spec {α : Type} (resp : models.GenerateContentResponse α) :
    models.CreateLLMResponse resp = NormalizeSpec resp := by
  rcases resp with ⟨cands, pf, u⟩
  cases cands with
  | nil => cases pf <;> rfl
  | cons cand rest =>
    rcases cand with ⟨cc, fr, fm, gm⟩
    cases cc with
    | none => rfl
    | some c =>
      by_cases h : 0 < c.Parts.length ∨ c.Message ≠ ""
      · have h2 : c.Message ≠ "" ∨ 1 ≤ c.Parts.length := Or.symm h
        simp [models.CreateLLMResponse, NormalizeSpec, h, h2]
      · have h2 : ¬(c.Message ≠ "" ∨ 1 ≤ c.Parts.length) := fun hx => h (Or.symm hx)
        simp [models.CreateLLMResponse, NormalizeSpec, h, h2]

/-- C8 (counterexample): a provider result whose only candidate has no
content and an empty finish-reason/finish-message normalizes to a failure
response (`IsError` is true) whose error code and error message are both
the empty string — so failure responses do not always carry a *non-empty*
code and message, falsifying the claim as stated. -/
theorem C8_counterexample :
    (models.CreateLLMResponse (@models.GenerateContentResponse.mk Unit
        [⟨none, "", "", none⟩] none ⟨0, 0, 0, 0, 0⟩)).IsError = true ∧
    (models.CreateLLMResponse (@models.GenerateContentResponse.mk Unit
        [⟨none, "", "", none⟩] none ⟨0, 0, 0, 0, 0⟩)).ErrorCode = some "" ∧
    (models.CreateLLMResponse (@models.GenerateContentResponse.mk Unit
        [⟨none, "", "", none⟩] none ⟨0, 0, 0, 0, 0⟩)).ErrorMessage = some "" := by
  decide

/-- C8 (amended): every failure response produced by the normalizer
carries both the error-code field and the error-message field (set
together in every error branch, though the strings themselves may be
empty, e.g. an empty provider finish-reason), and `IsError` is determined
solely by the presence of the code/message fields, independent of the
content field. -/
theorem C8_error_fields_presence {α : Type} (resp : models.GenerateContentResponse α) :
    (models.CreateLLMResponse resp).IsError =
      ((models.CreateLLMResponse resp).ErrorCode.isSome ||
       (models.CreateLLMResponse resp).ErrorMessage.isSome) ∧
    (models.CreateLLMResponse resp).ErrorCode.isSome =
      (models.CreateLLMResponse resp).ErrorMessage.isSome := by
  refine ⟨rfl, ?_⟩
  rcases resp with ⟨cands, pf, u⟩
  cases cands with
  | nil => cases pf <;> rfl
  | cons cand rest =>
    rcases cand with ⟨cc, fr, fm, gm⟩
    cases cc with
    | none => rfl
    | some c =>
      by_cases h : 0 < c.Parts.length ∨ c.Message ≠ "" <;>
        simp [models.CreateLLMResponse, models.emptyLLMResponse, h]

/-- Helper for the batch fail-fast claim: running the batch loop from any
start index over requests whose initial segment succeeds and whose next
request fails yields exactly the partial slice (successes, then nils) and
an error naming the failing request's index. -/
theorem batchCallLoop_first_error {α : Type} (c : mistral.MistralClient α)
    (ctxErr : Option String) (pre : List (models.LLMRequest α))
    (req : models.LLMRequest α) (post : List (models.LLMRequest α)) (e : String)
    (hpre : ∀ q ∈ pre, (mistral.MistralClient.Call c ctxErr q).isOk = true)
    (hreq : mistral.MistralClient.Call c ctxErr req = .error e) :
    ∀ i, mistral.batchCallLoop c ctxErr (pre ++ req :: post) i =
      (pre.map (fun q => (mistral.MistralClient.Call c ctxErr q).toOption) ++
        none :: post.map (fun _ => none),
       some ("error processing request " ++ toString (i + pre.length) ++ ": " ++ e)) := by
  induction pre with
  | nil =>
    intro i
    simp [mistral.batchCallLoop, hreq]
  | cons q qs ih =>
    intro i
    have hq := hpre q (List.mem_cons_self q qs)
    cases hcall : mistral.MistralClient.Call c ctxErr q with
    | error e2 => rw [hcall] at hq; simp [Except.isOk, Except.toBool] at hq
    | ok v =>
      have hrest := ih (fun r hr => hpre r (List.mem_cons_of_mem q hr)) (i + 1)
      have harith : i + 1 + qs.length = i + (qs.length + 1) := by omega
      simp [mistral.batchCallLoop, hcall, hrest, Except.toOption, harith]

/-- C9: `BatchCall` is fail-fast: when every request before position
`pre.length` succeeds and the request at that 0-based position fails, the
batch returns an error naming that index ("error processing request i")
and no subsequent request is processed or reported as a success (their
response slots are all nil). -/
theorem C9_batch_fail_fast {α : Type} (c : mistral.MistralClient α)
    (ctxErr : Option String) (pre : List (models.LLMRequest α))
    (req : models.LLMRequest α) (post : List (models.LLMRequest α)) (e : String)
    (hpre : ∀ q ∈ pre, (mistral.MistralClient.Call c ctxErr q).isOk = true)
    (hreq : mistral.MistralClient.Call c ctxErr req = .error e) :
    mistral.MistralClient.BatchCall c ctxErr (pre ++ req :: post) =
      (pre.map (fun q => (mistral.MistralClient.Call c ctxErr q).toOption) ++
        none :: post.map (fun _ => none),
       some ("error processing request " ++ toString pre.length ++ ": " ++ e)) := by
  have h := batchCallLoop_first_error c ctxErr pre req post e hpre hreq 0
  simpa [mistral.MistralClient.BatchCall] using h

/-- C9 (witness): a batch of three requests whose second request is
invalid fails naming index 1, with the third request's slot nil. -/
theorem C9_batch_fail_fast_witness :
    (∀ q ∈ [@models.LLMRequest.mk Unit "mistral-large" [⟨"user", "hi", []⟩] none
              ⟨false, 0, "", []⟩ []],
      (mistral.MistralClient.Call
        ⟨⟨"key", "", "", 30, ⟨3, 100, 5000, [429, 500, 502, 503, 504]⟩,
          ⟨false, [], "sequential"⟩, []⟩, "mistral-large"⟩ none q).isOk = true) ∧
    mistral.MistralClient.Call
        ⟨⟨"key", "", "", 30, ⟨3, 100, 5000, [429, 500, 502, 503, 504]⟩,
          ⟨false, [], "sequential"⟩, []⟩, "mistral-large"⟩ none
        (@models.LLMRequest.mk Unit "mistral-large" [] none ⟨false, 0, "", []⟩ []) =
      .error "invalid request: request must contain at least one content message" ∧
    mistral.MistralClient.BatchCall
        ⟨⟨"key", "", "", 30, ⟨3, 100, 5000, [429, 500, 502, 503, 504]⟩,
          ⟨false, [], "sequential"⟩, []⟩, "mistral-large"⟩ none
        [@models.LLMRequest.mk Unit "mistral-large" [⟨"user", "hi", []⟩] none
           ⟨false, 0, "", []⟩ [],
         @models.LLMRequest.mk Unit "mistral-large" [] none ⟨false, 0, "", []⟩ [],
         @models.LLMRequest.mk Unit "mistral-large" [⟨"user", "hi", []⟩] none
           ⟨false, 0, "", []⟩ []] =
      ([@models.LLMRequest.mk Unit "mistral-large" [⟨"user", "hi", []⟩] none
          ⟨false, 0, "", []⟩ []].map
          (fun q => (mistral.MistralClient.Call
            ⟨⟨"key", "", "", 30, ⟨3, 100, 5000, [429, 500, 502, 503, 504]⟩,
              ⟨false, [], "sequential"⟩, []⟩, "mistral-large"⟩ none q).toOption) ++
        none :: [@models.LLMRequest.mk Unit "mistral-large" [⟨"user", "hi", []⟩] none
          ⟨false, 0, "", []⟩ []].map (fun _ => none),
       some ("error processing request 1: invalid request: request must contain at least one content message")) :=
  ⟨by decide, by rfl,
    C9_batch_fail_fast
      ⟨⟨"key", "", "", 30, ⟨3, 100, 5000, [429, 500, 502, 503, 504]⟩,
        ⟨false, [], "sequential"⟩, []⟩, "mistral-large"⟩ none
      [@models.LLMRequest.mk Unit "mistral-large" [⟨"user", "hi", []⟩] none
         ⟨false, 0, "", []⟩ []]
      (@models.LLMRequest.mk Unit "mistral-large" [] none ⟨false, 0, "", []⟩ [])
      [@models.LLMRequest.mk Unit "mistral-large" [⟨"user", "hi", []⟩] none
         ⟨false, 0, "", []⟩ []]
      "invalid request: request must contain at least one content message"
      (by decide) (by rfl)⟩

/-- Helper for the resolution claim: patterns that do not match the
identifier are skipped by the models-registry scan. -/
theorem models_scan_skip_nonmatching (x : String)
    (pre rest : List (String × models.ModelInfo))
    (hpre : ∀ q ∈ pre, matchString q.1 x = some false) :
    models.scan x (pre ++ rest) = models.scan x rest := by
  induction pre with
  | nil => rfl
  | cons hd tl ih =>
    obtain ⟨pq, pv⟩ := hd
    have h1 : matchString pq x = some false := hpre (pq, pv) (List.mem_cons_self _ _)
    have h2 := ih (fun q hq => hpre q (List.mem_cons_of_mem _ hq))
    simpa [models.scan, h1] using h2

/-- C10: when the identifier `x` is not cached and `(p, m)` is the first
registered pattern matching `x`, `models.Resolve x` returns a copy of `m`
whose `ID` field is replaced by `x` and whose other fields are unchanged;
the registry itself is untouched, the rewritten copy is written to the
cache, and a subsequent resolution of `x` returns the identical copy from
that cache entry. -/
theorem C10_resolve_rewrites_id (x p : String) (m : models.ModelInfo)
    (pre post cache0 : List (String × models.ModelInfo))
    (hmiss : lookupA x cache0 = none)
    (hpre : ∀ q ∈ pre, matchString q.1 x = some false)
    (hmatch : matchString p x = some true) :
    models.Resolve x ⟨pre ++ (p, m) :: post, cache0⟩ =
      (.ok { m with ID := x },
       ⟨pre ++ (p, m) :: post, insertA x { m with ID := x } cache0⟩) ∧
    models.Resolve x ⟨pre ++ (p, m) :: post, insertA x { m with ID := x } cache0⟩ =
      (.ok { m with ID := x },
       ⟨pre ++ (p, m) :: post, insertA x { m with ID := x } cache0⟩) := by
  have hscan : models.scan x (pre ++ (p, m) :: post) = .ok { m with ID := x } := by
    rw [models_scan_skip_nonmatching x pre _ hpre]
    simp [models.scan, hmatch]
  constructor
  · simp [models.Resolve, hmiss, hscan]
  · simp [models.Resolve, lookupA_insertA_self]

/-- C10 (witness): resolving `"claude-3-sonnet-20240229"` against the
registered pattern `"claude-3-sonnet.*"` returns the registered metadata
with its `ID` rewritten to the requested identifier, caches that copy and
leaves the registry unchanged. -/
theorem C10_resolve_rewrites_id_witness :
    lookupA "claude-3-sonnet-20240229" ([] : List (String × models.ModelInfo)) = none ∧
    matchString "claude-3-sonnet.*" "claude-3-sonnet-20240229" = some true ∧
    models.Resolve "claude-3-sonnet-20240229"
        ⟨[("claude-3-sonnet.*",
           ⟨"claude-3-sonnet", ["chat", "thinking", "rag"], 200000, 1 / 100000,
            "anthropic", "standard", "1.0"⟩)], []⟩ =
      (.ok ⟨"claude-3-sonnet-20240229", ["chat", "thinking", "rag"], 200000, 1 / 100000,
            "anthropic", "standard", "1.0"⟩,
       ⟨[("claude-3-sonnet.*",
          ⟨"claude-3-sonnet", ["chat", "thinking", "rag"], 200000, 1 / 100000,
           "anthropic", "standard", "1.0"⟩)],
        [("claude-3-sonnet-20240229",
          ⟨"claude-3-sonnet-20240229", ["chat", "thinking", "rag"], 200000, 1 / 100000,
           "anthropic", "standard", "1.0"⟩)]⟩) :=
  ⟨rfl, by decide,
    (C10_resolve_rewrites_id "claude-3-sonnet-20240229" "claude-3-sonnet.*"
      ⟨"claude-3-sonnet", ["chat", "thinking", "rag"], 200000, 1 / 100000,
       "anthropic", "standard", "1.0"⟩
      [] [] [] rfl (by simp) (by decide)).1⟩

/-- Shared evaluation for the backoff counterexamples: with both backoff
bounds set to `-1000` milliseconds, attempt `0` and jitter source `9/10`,
the computed backoff is `-1160` ms, i.e. `-1160000000` ns. -/
theorem calculateBackoff_neg_example :
    common.CalculateBackoff 0 ⟨3, -1000, -1000, []⟩ (9 / 10) = -1160000000 := by
  have e1 : common.CalculateBackoff 0 ⟨3, -1000, -1000, []⟩ (9 / 10) =
      floatTrunc (min ((((-1000 : ℤ)) : ℚ) * 2 ^ ((0 : ℤ)).toNat) (((-1000 : ℤ)) : ℚ) +
        min ((((-1000 : ℤ)) : ℚ) * 2 ^ ((0 : ℤ)).toNat) (((-1000 : ℤ)) : ℚ) *
          (1 / 5) * (2 * (9 / 10) - 1)) * 1000000 := rfl
  rw [e1]
  have e2 : min ((((-1000 : ℤ)) : ℚ) * 2 ^ ((0 : ℤ)).toNat) (((-1000 : ℤ)) : ℚ) +
      min ((((-1000 : ℤ)) : ℚ) * 2 ^ ((0 : ℤ)).toNat) (((-1000 : ℤ)) : ℚ) *
        (1 / 5) * (2 * (9 / 10) - 1) = -1160 := by
    norm_num
  rw [e2]
  have e3 : floatTrunc (-1160 : ℚ) = -1160 := by
    unfold floatTrunc
    rw [if_neg (by norm_num)]
    norm_num
  rw [e3]
  norm_num

/-- C6 (counterexample): the bound fails for a retry policy with negative
backoff fields: with min/max backoff `-1000` ms and jitter source `9/10`
(which lies in `[0,1)`), the computed backoff `-1160` ms exceeds
`maxBackoff * 1.2 = -1200` ms, so the claim over *every* retry policy is
false. -/
theorem C6_counterexample :
    (0 : ℚ) ≤ 9 / 10 ∧ (9 / 10 : ℚ) < 1 ∧
    ¬(((common.CalculateBackoff 0 ⟨3, -1000, -1000, []⟩ (9 / 10) : ℤ) : ℚ) ≤
      (((⟨3, -1000, -1000, []⟩ : common.RetryConfig).MaxBackoff : ℚ)) * 1000000 * (6 / 5)) := by
  refine ⟨by norm_num, by norm_num, ?_⟩
  rw [calculateBackoff_neg_example]
  norm_num

/-- C6 (amended): for every retry policy whose minimum and maximum backoff
are nonnegative (they are durations in milliseconds), every attempt count
and every jitter-source value in `[0,1)`, the computed backoff duration is
at most `maxBackoff * 1.2` (as a duration, `maxBackoff * 1000000` ns times
`6/5`). -/
theorem C6_backoff_bounded (attempt : Int) (config : common.RetryConfig) (r : ℚ)
    (hmin : 0 ≤ config.MinBackoff) (hmax : 0 ≤ config.MaxBackoff)
    (hr0 : 0 ≤ r) (hr1 : r < 1) :
    ((common.CalculateBackoff attempt config r : ℤ) : ℚ) ≤
      (config.MaxBackoff : ℚ) * 1000000 * (6 / 5) := by
  have e1 : common.CalculateBackoff attempt config r =
      floatTrunc (min ((config.MinBackoff : ℚ) * 2 ^ ((if attempt < 0 then 0 else attempt)).toNat)
          (config.MaxBackoff : ℚ) +
        min ((config.MinBackoff : ℚ) * 2 ^ ((if attempt < 0 then 0 else attempt)).toNat)
          (config.MaxBackoff : ℚ) * (1 / 5) * (2 * r - 1)) * 1000000 := rfl
  have hminQ : (0 : ℚ) ≤ (config.MinBackoff : ℚ) := by exact_mod_cast hmin
  have hmaxQ : (0 : ℚ) ≤ (config.MaxBackoff : ℚ) := by exact_mod_cast hmax
  set b := min ((config.MinBackoff : ℚ) * 2 ^ ((if attempt < 0 then 0 else attempt)).toNat)
    (config.MaxBackoff : ℚ) with hb
  have hb0 : 0 ≤ b := le_min (by positivity) hmaxQ
  have hble : b ≤ (config.MaxBackoff : ℚ) := min_le_right _ _
  have hX0 : 0 ≤ b + b * (1 / 5) * (2 * r - 1) := by nlinarith
  have hXle : b + b * (1 / 5) * (2 * r - 1) ≤ (config.MaxBackoff : ℚ) * (6 / 5) := by
    nlinarith
  have hfl : floatTrunc (b + b * (1 / 5) * (2 * r - 1)) =
      ⌊b + b * (1 / 5) * (2 * r - 1)⌋ := by
    unfold floatTrunc
    rw [if_pos hX0]
  have hfle : ((⌊b + b * (1 / 5) * (2 * r - 1)⌋ : ℤ) : ℚ) ≤
      b + b * (1 / 5) * (2 * r - 1) := Int.floor_le _
  rw [e1, hfl]
  push_cast
  nlinarith

/-- C6 (witness): the amended bound at a concrete policy, attempt and
jitter value. -/
theorem C6_backoff_bounded_witness :
    (0 : ℤ) ≤ (⟨3, 100, 5000, [429, 500, 502, 503, 504]⟩ : common.RetryConfig).MinBackoff ∧
    (0 : ℤ) ≤ (⟨3, 100, 5000, [429, 500, 502, 503, 504]⟩ : common.RetryConfig).MaxBackoff ∧
    (0 : ℚ) ≤ 0 ∧ (0 : ℚ) < 1 ∧
    ((common.CalculateBackoff 3 ⟨3, 100, 5000, [429, 500, 502, 503, 504]⟩ 0 : ℤ) : ℚ) ≤
      ((⟨3, 100, 5000, [429, 500, 502, 503, 504]⟩ : common.RetryConfig).MaxBackoff : ℚ) *
        1000000 * (6 / 5) :=
  ⟨by decide, by decide, by decide, by decide,
    C6_backoff_bounded 3 ⟨3, 100, 5000, [429, 500, 502, 503, 504]⟩ 0
      (by decide) (by decide) (by decide) (by decide)⟩

/-- C7 (counterexample): the code applies no zero-floor: for a retry
policy with negative backoff fields and jitter source `9/10` (in `[0,1)`),
`CalculateBackoff` returns the negative duration `-1160000000` ns, so the
claim that it never returns a negative duration for *every* retry policy
is false. -/
theorem C7_counterexample :
    (0 : ℚ) ≤ 9 / 10 ∧ (9 / 10 : ℚ) < 1 ∧
    common.CalculateBackoff 0 ⟨3, -1000, -1000, []⟩ (9 / 10) < 0 := by
  refine ⟨by norm_num, by norm_num, ?_⟩
  rw [calculateBackoff_neg_example]
  norm_num

/-- C7 (amended): for every retry policy whose minimum and maximum backoff
are nonnegative (they are durations in milliseconds), every attempt count
and every jitter-source value in `[0,1)`, the computed backoff duration is
nonnegative. -/
theorem C7_backoff_nonneg (attempt : Int) (config : common.RetryConfig) (r : ℚ)
    (hmin : 0 ≤ config.MinBackoff) (hmax : 0 ≤ config.MaxBackoff)
    (hr0 : 0 ≤ r) (hr1 : r < 1) :
    0 ≤ common.CalculateBackoff attempt config r := by
  have e1 : common.CalculateBackoff attempt config r =
      floatTrunc (min ((config.MinBackoff : ℚ) * 2 ^ ((if attempt < 0 then 0 else attempt)).toNat)
          (config.MaxBackoff : ℚ) +
        min ((config.MinBackoff : ℚ) * 2 ^ ((if attempt < 0 then 0 else attempt)).toNat)
          (config.MaxBackoff : ℚ) * (1 / 5) * (2 * r - 1)) * 1000000 := rfl
  have hminQ : (0 : ℚ) ≤ (config.MinBackoff : ℚ) := by exact_mod_cast hmin
  have hmaxQ : (0 : ℚ) ≤ (config.MaxBackoff : ℚ) := by exact_mod_cast hmax
  set b := min ((config.MinBackoff : ℚ) * 2 ^ ((if attempt < 0 then 0 else attempt)).toNat)
    (config.MaxBackoff : ℚ) with hb
  have hb0 : 0 ≤ b := le_min (by positivity) hmaxQ
  have hX0 : 0 ≤ b + b * (1 / 5) * (2 * r - 1) := by nlinarith
  have hfl : floatTrunc (b + b * (1 / 5) * (2 * r - 1)) =
      ⌊b + b * (1 / 5) * (2 * r - 1)⌋ := by
    unfold floatTrunc
    rw [if_pos hX0]
  have hfl0 : 0 ≤ ⌊b + b * (1 / 5) * (2 * r - 1)⌋ := by
    rw [Int.le_floor]
    exact_mod_cast hX0
  rw [e1, hfl]
  positivity

/-- C7 (witness): the amended nonnegativity at a concrete policy, attempt
and jitter value. -/
theorem C7_backoff_nonneg_witness :
    (0 : ℤ) ≤ (⟨3, 100, 5000, [429, 500, 502, 503, 504]⟩ : common.RetryConfig).MinBackoff ∧
    (0 : ℤ) ≤ (⟨3, 100, 5000, [429, 500, 502, 503, 504]⟩ : common.RetryConfig).MaxBackoff ∧
    (0 : ℚ) ≤ 0 ∧ (0 : ℚ) < 1 ∧
    0 ≤ common.CalculateBackoff 3 ⟨3, 100, 5000, [429, 500, 502, 503, 504]⟩ 0 :=
  ⟨by decide, by decide, by decide, by decide,
    C7_backoff_nonneg 3 ⟨3, 100, 5000, [429, 500, 502, 503, 504]⟩ 0
      (by decide) (by decide) (by decide) (by decide)⟩
